import Mathlib

/-!
Verification of the mailbridge provider-adapter layer and its bulk-dispatch
policy.  The Python data model (`mailbridge/dto`), the provider capability
contract (`mailbridge/providers/base_email_provider.py`) and the per-provider
adapters (SMTP, SendGrid, Mailgun, SES) are shallow-embedded below; outbound
HTTP/boto transport is a black box modelled as a function from the built
request to a provider response.
-/

deriving instance DecidableEq for Except

namespace Mailbridge

/-- Truthiness of an optional Python string: `None` and `""` are falsy. -/
def strTruthy : Option String → Bool
  | none => false
  | some s => s != ""

/-- Truthiness of an optional Python list: `None` and `[]` are falsy. -/
def listTruthy {α : Type} : Option (List α) → Bool
  | none => false
  | some l => !l.isEmpty

/-- One attachment source of `EmailMessageDto.attachments`: either a
filesystem path (`pathlib.Path`) or a `(filename, content, mimetype)` triple. -/
inductive Attachment
  | path (p : String)
  | tuple (filename : String) (content : String) (mimetype : String)
deriving DecidableEq

/-- A recipient field as accepted by the `EmailMessageDto` constructor:
either a single address string or a list of address strings
(`Union[str, List[str]]`). -/
inductive AddressInput
  | single (address : String)
  | addrList (l : List String)
deriving DecidableEq

/-- The normalisation performed by `EmailMessageDto.__post_init__`:
`isinstance(x, str)` wraps a single address into a one-element list. -/
def normalizeAddresses : AddressInput → List String
  | .single a => [a]
  | .addrList l => l

/-- The `EmailMessageDto` dataclass after `__post_init__` has normalised the
address fields (`to`/`cc`/`bcc` are lists).  `template_data` is the arbitrary
key-value mapping, represented as an association list. -/
structure EmailMessageDto where
  /-- Source field `to` (renamed: `to` is a reserved token in Lean). -/
  to_addresses : List String
  subject : Option String := none
  body : Option String := none
  from_email : Option String := none
  cc : Option (List String) := none
  bcc : Option (List String) := none
  reply_to : Option String := none
  attachments : Option (List Attachment) := none
  html : Bool := true
  headers : Option (List (String × String)) := none
  template_id : Option String := none
  template_data : Option (List (String × String)) := none
  tags : Option (List String) := none
deriving DecidableEq

/-- Construction of an `EmailMessageDto`, i.e. the dataclass constructor
followed by `__post_init__`: addresses are normalised to lists, then the
content validation runs (`ValueError` is modelled as `Except.error` carrying
the exception message). -/
def mkEmailMessageDto (to_addresses : AddressInput) (subject body from_email : Option String)
    (cc bcc : Option AddressInput) (reply_to : Option String)
    (attachments : Option (List Attachment)) (html : Bool)
    (headers : Option (List (String × String)))
    (template_id : Option String) (template_data : Option (List (String × String)))
    (tags : Option (List String)) : Except String EmailMessageDto :=
  if !strTruthy template_id && !strTruthy subject then
    .error "Either \x27subject\x27 or \x27template_id\x27 must be provided"
  else if !strTruthy template_id && !strTruthy body then
    .error "Either \x27body\x27 or \x27template_id\x27 must be provided"
  else
    .ok { to_addresses := normalizeAddresses to_addresses, subject := subject, body := body,
          from_email := from_email, cc := cc.map normalizeAddresses,
          bcc := bcc.map normalizeAddresses, reply_to := reply_to,
          attachments := attachments, html := html, headers := headers,
          template_id := template_id, template_data := template_data, tags := tags }

/-- The `EmailMessageDto.is_template_email` predicate:
`self.template_id is not None`. -/
def EmailMessageDto.is_template_email (m : EmailMessageDto) : Bool :=
  m.template_id.isSome

/-- A value stored in the `metadata` bag of an `EmailResponseDTO`. -/
inductive MetaValue
  | str (s : String)
  | num (n : Nat)
  | optStr (s : Option String)
deriving DecidableEq

/-- The `EmailResponseDTO` dataclass (the normalized SendResult). -/
structure EmailResponseDTO where
  success : Bool
  message_id : Option String := none
  provider : Option String := none
  error : Option String := none
  metadata : List (String × MetaValue) := []
deriving DecidableEq

/-- The `BulkEmailResponseDTO` dataclass (the normalized BulkResult). -/
structure BulkEmailResponseDTO where
  total : Nat
  successful : Nat
  failed : Nat
  responses : List EmailResponseDTO := []
deriving DecidableEq

/-- The classmethod `BulkEmailResponseDTO.from_responses`:
`total = len(responses)`, `successful = sum(1 for r in responses if r.success)`,
`failed = total - successful`. -/
def BulkEmailResponseDTO.from_responses (responses : List EmailResponseDTO) :
    BulkEmailResponseDTO :=
  let total := responses.length
  let successful := responses.countP (fun r => r.success)
  let failed := total - successful
  { total := total, successful := successful, failed := failed, responses := responses }

/-- The `BulkEmailDTO` dataclass. -/
structure BulkEmailDTO where
  messages : List EmailMessageDto
  default_from : Option String := none
  tags : Option (List String) := none
deriving DecidableEq

/-- Construction of a `BulkEmailDTO`, i.e. the dataclass constructor followed
by `__post_init__`: an empty message list raises `ValueError`; a truthy
`default_from` is written into every message with a falsy `from_email`; truthy
`tags` are extended onto each message's truthy tag list, or copied onto a
message whose own tags are falsy. -/
def mkBulkEmailDTO (messages : List EmailMessageDto) (default_from : Option String)
    (tags : Option (List String)) : Except String BulkEmailDTO :=
  match messages with
  | [] => .error "At least one message must be provided"
  | _ =>
    let ms1 := if strTruthy default_from then
        messages.map (fun m =>
          if strTruthy m.from_email then m else { m with from_email := default_from })
      else messages
    let ms2 := if listTruthy tags then
        ms1.map (fun m =>
          if listTruthy m.tags then { m with tags := some (m.tags.getD [] ++ tags.getD []) }
          else { m with tags := some (tags.getD []) })
      else ms1
    .ok { messages := ms2, default_from := default_from, tags := tags }

lemma getD_eq_nil_of_not_listTruthy {α : Type} {t : Option (List α)}
    (h : listTruthy t = false) : t.getD [] = [] := by
  cases t with
  | none => rfl
  | some l =>
    simp [listTruthy] at h
    simp [h]

lemma strTruthy_none : strTruthy none = false := rfl

lemma strTruthy_some_of_ne {s : String} (h : s ≠ "") : strTruthy (some s) = true := by
  simp [strTruthy, h]

lemma listTruthy_some_of_ne {α : Type} {l : List α} (h : l ≠ []) :
    listTruthy (some l) = true := by
  simp [listTruthy, h]

lemma bulk_defaults_map_comp (d : Option String) (bts : List String)
    (l : List EmailMessageDto) :
    (l.map (fun m =>
        if strTruthy m.from_email then m else { m with from_email := d })).map
      (fun m =>
        if listTruthy m.tags then { m with tags := some (m.tags.getD [] ++ bts) }
        else { m with tags := some bts })
    = l.map (fun m =>
        { m with
          from_email := if strTruthy m.from_email then m.from_email else d,
          tags := some (m.tags.getD [] ++ bts) }) := by
  induction l with
  | nil => rfl
  | cons m ms ih =>
    simp only [List.map_cons, ih, List.cons.injEq, and_true]
    cases hfe : strTruthy m.from_email <;> cases ht : listTruthy m.tags
    · simp [hfe, ht, getD_eq_nil_of_not_listTruthy ht]
    · simp [hfe, ht]
    · simp [hfe, ht, getD_eq_nil_of_not_listTruthy ht]
    · simp [hfe, ht]

/-- C4: for every list of SendResults, including the empty list, the
BulkResult built by `from_responses` satisfies `total = successful + failed`,
`total` equal to the list's length, `successful` the count of entries with
`success` true, and `responses` the given list in order; the empty list gives
`total = 0`. -/
theorem from_responses_invariant (rs : List EmailResponseDTO) :
    (BulkEmailResponseDTO.from_responses rs).total
        = (BulkEmailResponseDTO.from_responses rs).successful
          + (BulkEmailResponseDTO.from_responses rs).failed
    ∧ (BulkEmailResponseDTO.from_responses rs).total = rs.length
    ∧ (BulkEmailResponseDTO.from_responses rs).successful
        = rs.countP (fun r => r.success)
    ∧ (BulkEmailResponseDTO.from_responses rs).responses = rs
    ∧ (BulkEmailResponseDTO.from_responses []).total = 0 := by
  refine ⟨?_, rfl, rfl, rfl, rfl⟩
  have h := List.countP_le_length (p := fun r : EmailResponseDTO => r.success) (l := rs)
  simp only [BulkEmailResponseDTO.from_responses]
  omega

/-- C5: constructing a BulkRequest from a non-empty message list with
`default_from` set assigns that address to exactly the contained messages
whose `from_email` is unset, leaves messages with an explicit `from_email`
unchanged, and appends (does not replace) the given tags onto each message's
existing tags; constructing with an empty message list always fails with a
validation error. -/
theorem bulk_construction_defaults (msgs : List EmailMessageDto) (d : String)
    (bts : List String) (hm : msgs ≠ []) (hd : d ≠ "") (hb : bts ≠ []) :
    mkBulkEmailDTO msgs (some d) (some bts) = .ok
      { messages := msgs.map (fun m =>
          { m with
            from_email := if strTruthy m.from_email then m.from_email else some d,
            tags := some (m.tags.getD [] ++ bts) }),
        default_from := some d, tags := some bts }
    ∧ ∀ (df : Option String) (tg : Option (List String)),
        mkBulkEmailDTO [] df tg = .error "At least one message must be provided" := by
  refine ⟨?_, fun df tg => rfl⟩
  obtain ⟨m0, ms0, rfl⟩ : ∃ a l, msgs = a :: l := by
    cases msgs with
    | nil => exact absurd rfl hm
    | cons a l => exact ⟨a, l, rfl⟩
  simp only [mkBulkEmailDTO, strTruthy_some_of_ne hd, listTruthy_some_of_ne hb,
    if_true, Option.getD_some]
  rw [bulk_defaults_map_comp]

/-- Witness for C5: the defaults applied to a concrete two-message batch. -/
theorem bulk_construction_defaults_witness :
    mkBulkEmailDTO
        [{ to_addresses := ["a@example.com"], subject := some "S", body := some "B" },
         { to_addresses := ["b@example.com"], subject := some "S", body := some "B",
           from_email := some "own@example.com", tags := some ["t1"] }]
        (some "default@example.com") (some ["T"])
      = .ok
        { messages :=
            [{ to_addresses := ["a@example.com"], subject := some "S", body := some "B",
               from_email := some "default@example.com", tags := some ["T"] },
             { to_addresses := ["b@example.com"], subject := some "S", body := some "B",
               from_email := some "own@example.com", tags := some ["t1", "T"] }],
          default_from := some "default@example.com", tags := some ["T"] } := by
  have h := bulk_construction_defaults
      [{ to_addresses := ["a@example.com"], subject := some "S", body := some "B" },
       { to_addresses := ["b@example.com"], subject := some "S", body := some "B",
         from_email := some "own@example.com", tags := some ["t1"] }]
      "default@example.com" ["T"] (by decide) (by decide) (by decide)
  exact h.1.trans (by decide)

/-- C6: a Message whose subject and body are both empty and whose
`template_id` is absent fails validation with a value error; with a non-empty
`template_id` and empty subject and body, construction succeeds (validation
requires subject OR template_id non-empty and body OR template_id
non-empty). -/
theorem message_content_validation (to_in : AddressInput)
    (subject body fe : Option String) (cc bcc : Option AddressInput)
    (rt : Option String) (att : Option (List Attachment)) (htmlFlag : Bool)
    (hdrs : Option (List (String × String))) (td : Option (List (String × String)))
    (tg : Option (List String))
    (hs : strTruthy subject = false) (_hb : strTruthy body = false) :
    mkEmailMessageDto to_in subject body fe cc bcc rt att htmlFlag hdrs none td tg
        = .error "Either \x27subject\x27 or \x27template_id\x27 must be provided"
    ∧ ∀ tid : String, tid ≠ "" →
        mkEmailMessageDto to_in subject body fe cc bcc rt att htmlFlag hdrs (some tid) td tg
          = .ok { to_addresses := normalizeAddresses to_in, subject := subject, body := body,
                  from_email := fe, cc := cc.map normalizeAddresses,
                  bcc := bcc.map normalizeAddresses, reply_to := rt,
                  attachments := att, html := htmlFlag, headers := hdrs,
                  template_id := some tid, template_data := td, tags := tg } := by
  constructor
  · simp [mkEmailMessageDto, strTruthy_none, hs]
  · intro tid htid
    simp [mkEmailMessageDto, strTruthy_some_of_ne htid]

/-- Witness for C6: content validation at concrete inputs. -/
theorem message_content_validation_witness :
    mkEmailMessageDto (.single "r@example.com") none none none none none none none true
        none none none none
      = .error "Either \x27subject\x27 or \x27template_id\x27 must be provided"
    ∧ mkEmailMessageDto (.single "r@example.com") none none none none none none none true
        none (some "welcome") none none
      = .ok { to_addresses := ["r@example.com"], template_id := some "welcome" } := by
  have h := message_content_validation (.single "r@example.com") none none none none none
      none none true none none none (by decide) (by decide)
  exact ⟨h.1, h.2 "welcome" (by decide)⟩

/-- C7 counterexample: constructing a Message with `to` given as an empty
list and valid content succeeds — `__post_init__` never checks recipient
non-emptiness, so no value error is raised, contrary to the claim. -/
theorem message_empty_to_accepted :
    mkEmailMessageDto (.addrList []) (some "Hi") (some "Body") none none none none none true
        none none none none
      = .ok { to_addresses := [], subject := some "Hi", body := some "Body" } := by decide

/-- C7 amended: the message constructor does not validate the recipient
list; for every input passing the content validation, construction with the
empty `to` list succeeds, storing the empty recipient list unchanged. -/
theorem message_to_not_validated (subject body fe : Option String)
    (cc bcc : Option AddressInput) (rt : Option String)
    (att : Option (List Attachment)) (htmlFlag : Bool)
    (hdrs : Option (List (String × String))) (tid : Option String)
    (td : Option (List (String × String))) (tg : Option (List String))
    (hs : strTruthy subject = true) (hb : strTruthy body = true) :
    mkEmailMessageDto (.addrList []) subject body fe cc bcc rt att htmlFlag hdrs tid td tg
      = .ok { to_addresses := [], subject := subject, body := body, from_email := fe,
              cc := cc.map normalizeAddresses, bcc := bcc.map normalizeAddresses,
              reply_to := rt, attachments := att, html := htmlFlag, headers := hdrs,
              template_id := tid, template_data := td, tags := tg } := by
  simp [mkEmailMessageDto, hs, hb, normalizeAddresses]

/-- Witness for C7 amended: empty recipient list accepted at concrete input. -/
theorem message_to_not_validated_witness :
    mkEmailMessageDto (.addrList []) (some "Hello") (some "World") none none none none none
        true none none none none
      = .ok { to_addresses := [], subject := some "Hello", body := some "World" } := by
  exact message_to_not_validated (some "Hello") (some "World") none none none none none true
      none none none none (by decide) (by decide)

/-- The six concrete provider adapter classes. -/
inductive Provider
  | smtp | sendgrid | mailgun | ses | postmark | brevo
deriving DecidableEq

/-- The default capability flag `BaseEmailProvider.supports_bulk_sending`,
which returns `False`. -/
def BaseEmailProvider.supports_bulk_sending : Bool := false

/-- The capability flag `supports_bulk_sending()` as resolved by Python
method lookup on each concrete adapter class: `SMTPProvider` extends
`BaseEmailProvider` directly and inherits the default; `SendGridProvider`,
`MailgunProvider`, `SESProvider`, `PostmarkProvider` and `BrevoProvider` all
extend `BulkCapableProvider`, whose override returns `True`. -/
def supports_bulk_sending : Provider → Bool
  | .smtp => BaseEmailProvider.supports_bulk_sending
  | .sendgrid => true
  | .mailgun => true
  | .ses => true
  | .postmark => true
  | .brevo => true

/-- C8 counterexample: the Mailgun and Postmark adapters both subclass
`BulkCapableProvider`, so their `supports_bulk_sending()` returns true, not
false as claimed. -/
theorem supports_bulk_sending_mailgun_postmark_true :
    ¬ (supports_bulk_sending Provider.mailgun = false
        ∨ supports_bulk_sending Provider.postmark = false) := by decide

/-- C8 amended: `supports_bulk_sending()` returns false by default
(`BaseEmailProvider`), and among the six adapters only SMTP reports false;
Mailgun and Postmark report true because they subclass `BulkCapableProvider`
even though each implements only a per-message loop.  The flag is a constant
of the adapter class, so repeated calls agree. -/
theorem supports_bulk_sending_spec :
    BaseEmailProvider.supports_bulk_sending = false
    ∧ ∀ p : Provider, (supports_bulk_sending p = false ↔ p = Provider.smtp) := by
  refine ⟨rfl, fun p => ?_⟩
  cases p <;> simp [supports_bulk_sending, BaseEmailProvider.supports_bulk_sending]

/-- A provider configuration mapping: keys to Python values, a value being
`none` (Python `None`) or a string.  `_validate_config` only ever inspects
key presence. -/
def ProviderConfig := List (String × Option String)

/-- Python membership test `key in config` on the configuration mapping. -/
def configContains (config : ProviderConfig) (key : String) : Bool :=
  config.any (fun kv => kv.1 == key)

/-- The required-key list of `SMTPProvider._validate_config`. -/
def smtpRequiredKeys : List String := ["host", "port", "username", "password"]

/-- The method `SMTPProvider._validate_config`: collects the required keys
missing from the config mapping (`key not in self.config`) and raises
`ConfigurationError` naming them, comma-joined; values are never
inspected. -/
def SMTPProvider.validate_config (config : ProviderConfig) : Except String Unit :=
  let missing := smtpRequiredKeys.filter (fun key => !configContains config key)
  if !missing.isEmpty then
    .error ("Missing required SMTP configuration: " ++ String.intercalate ", " missing)
  else
    .ok ()

/-- C10: SMTP configuration validation checks key presence only: it succeeds
exactly when the keys host, port, username and password are all present —
also when every one of them maps to `None` — and otherwise raises a
`ConfigurationError` whose message names exactly the missing keys. -/
theorem smtp_validate_config_presence_only (config : ProviderConfig) :
    (SMTPProvider.validate_config config = .ok ()
      ↔ smtpRequiredKeys.all (configContains config) = true)
    ∧ (smtpRequiredKeys.all (configContains config) = false →
        SMTPProvider.validate_config config
          = .error ("Missing required SMTP configuration: "
              ++ String.intercalate ", "
                  (smtpRequiredKeys.filter (fun key => !configContains config key))))
    ∧ SMTPProvider.validate_config
        [("host", none), ("port", none), ("username", none), ("password", none)]
        = .ok () := by
  refine ⟨?_, ?_, by decide⟩ <;>
    cases h1 : configContains config "host" <;>
    cases h2 : configContains config "port" <;>
    cases h3 : configContains config "username" <;>
    cases h4 : configContains config "password" <;>
    simp [SMTPProvider.validate_config, smtpRequiredKeys, h1, h2, h3, h4]

/-- Witness for C10: one missing-key config and the all-`None` config. -/
theorem smtp_validate_config_witness :
    SMTPProvider.validate_config [("host", some "smtp.example.com")]
      = .error "Missing required SMTP configuration: port, username, password"
    ∧ SMTPProvider.validate_config
        [("host", none), ("port", none), ("username", none), ("password", none)]
        = .ok () := by
  have h := smtp_validate_config_presence_only [("host", some "smtp.example.com")]
  exact ⟨(h.2.1 (by decide)).trans (by decide), h.2.2⟩

/-- Python exceptions distinguished by the embedded fragment:
`EmailSendError(message, provider=...)`, `AttributeError`, and any other
exception rendered by `str(e)`. -/
inductive PyError
  | emailSendError (message : String) (provider : Option String)
  | attributeError (message : String)
  | otherError (message : String)
deriving DecidableEq

/-- Python `str(e)` on a caught exception (for `EmailSendError` the message
passed to `super().__init__`). -/
def PyError.str : PyError → String
  | .emailSendError message _ => message
  | .attributeError message => message
  | .otherError message => message

/-- The inherited default `BaseEmailProvider.send_bulk`: one `send` per
message; an `EmailSendError` becomes a failed SendResult carrying `str(e)`
and the adapter class name; any other exception becomes a failed SendResult
with an `Unexpected error` prefix; the batch never aborts. -/
def BaseEmailProvider.send_bulk (className : String)
    (send : EmailMessageDto → Except PyError EmailResponseDTO)
    (bulk : BulkEmailDTO) : BulkEmailResponseDTO :=
  BulkEmailResponseDTO.from_responses <| bulk.messages.map fun message =>
    match send message with
    | .ok r => r
    | .error (.emailSendError msg _) =>
        { success := false, provider := some className, error := some msg }
    | .error e =>
        { success := false, provider := some className,
          error := some ("Unexpected error: " ++ e.str) }

/-- A sequential per-message loop with no per-message exception handling:
the first raising `send` aborts the loop and the exception propagates. -/
def sendLoop (send : EmailMessageDto → Except PyError EmailResponseDTO) :
    List EmailMessageDto → Except PyError (List EmailResponseDTO)
  | [] => .ok []
  | m :: ms => do
    let r ← send m
    let rs ← sendLoop send ms
    .ok (r :: rs)

/-- The override `MailgunProvider.send_bulk`: a plain per-message loop inside
one `try`; any exception raised by a message's `send` reaches the enclosing
`except Exception`, which re-raises the whole batch as `EmailSendError`. -/
def MailgunProvider.send_bulk (send : EmailMessageDto → Except PyError EmailResponseDTO)
    (bulk : BulkEmailDTO) : Except PyError BulkEmailResponseDTO :=
  match sendLoop send bulk.messages with
  | .ok responses => .ok (BulkEmailResponseDTO.from_responses responses)
  | .error e =>
      .error (.emailSendError ("Failed to send bulk emails via Mailgun: " ++ e.str)
        (some "mailgun"))

/-- C3 counterexample: Mailgun has no native bulk API, yet its overridden
`send_bulk` does not isolate per-message failure: with a 3-message batch
whose second message's `send` raises, the whole batch aborts with
`EmailSendError` instead of producing `total=3, successful=2, failed=1`. -/
theorem mailgun_send_bulk_aborts :
    MailgunProvider.send_bulk
      (fun m =>
        if m.to_addresses == ["fail@example.com"] then
          .error (.emailSendError "Mailgun API error: 400 - bad request" (some "mailgun"))
        else
          .ok { success := true, message_id := some "id1", provider := some "mailgun" })
      { messages :=
          [{ to_addresses := ["a@example.com"], subject := some "S", body := some "B" },
           { to_addresses := ["fail@example.com"], subject := some "S", body := some "B" },
           { to_addresses := ["c@example.com"], subject := some "S", body := some "B" }] }
      = .error (.emailSendError
          "Failed to send bulk emails via Mailgun: Mailgun API error: 400 - bad request"
          (some "mailgun")) := by decide

/-- C3 amended: for providers using the inherited default `send_bulk` of
`BaseEmailProvider` (as every provider without an override does, e.g. SMTP),
per-message failure is isolated: a 3-message batch whose second message's
send raises `EmailSendError` yields `total=3, successful=2, failed=1`, the
failed entry carrying the non-empty error string and the adapter class name.
The Mailgun and Postmark overrides instead propagate the failure as a
batch-level `EmailSendError`. -/
theorem default_send_bulk_isolates (className : String)
    (send : EmailMessageDto → Except PyError EmailResponseDTO)
    (m1 m2 m3 : EmailMessageDto) (r1 r3 : EmailResponseDTO)
    (emsg : String) (p : Option String)
    (h1 : send m1 = .ok r1) (hr1 : r1.success = true)
    (h2 : send m2 = .error (.emailSendError emsg p)) (hemsg : emsg ≠ "")
    (h3 : send m3 = .ok r3) (hr3 : r3.success = true) :
    BaseEmailProvider.send_bulk className send { messages := [m1, m2, m3] }
      = { total := 3, successful := 2, failed := 1,
          responses := [r1,
            { success := false, provider := some className, error := some emsg },
            r3] }
    ∧ emsg ≠ "" := by
  refine ⟨?_, hemsg⟩
  simp [BaseEmailProvider.send_bulk, h1, h2, h3, BulkEmailResponseDTO.from_responses,
    List.countP_cons, hr1, hr3]

/-- Witness for C3 amended: concrete 3-message batch on the default loop. -/
theorem default_send_bulk_isolates_witness :
    BaseEmailProvider.send_bulk "SMTPProvider"
      (fun m =>
        if m.to_addresses == ["b@example.com"] then
          .error (.emailSendError "boom" (some "smtp"))
        else
          .ok { success := true, message_id := some "mid", provider := some "smtp" })
      { messages :=
          [{ to_addresses := ["a@example.com"], subject := some "S", body := some "B" },
           { to_addresses := ["b@example.com"], subject := some "S", body := some "B" },
           { to_addresses := ["c@example.com"], subject := some "S", body := some "B" }] }
      = { total := 3, successful := 2, failed := 1,
          responses :=
            [{ success := true, message_id := some "mid", provider := some "smtp" },
             { success := false, provider := some "SMTPProvider", error := some "boom" },
             { success := true, message_id := some "mid", provider := some "smtp" }] }
    ∧ "boom" ≠ "" := by
  exact default_send_bulk_isolates "SMTPProvider" _ _ _ _ _ _ "boom" (some "smtp")
    (by decide) (by decide) (by decide) (by decide) (by decide) (by decide)

/-- An HTTP response as the adapters see it: status code, headers, body
text.  The transport call itself is a black box. -/
structure HttpResponse where
  status_code : Nat
  headers : List (String × String)
  text : String := ""
deriving DecidableEq

/-- Header lookup `response.headers.get(key)`. -/
def headersGet (headers : List (String × String)) (key : String) : Option String :=
  (headers.find? (fun kv => kv.1 == key)).map (fun kv => kv.2)

/-- External file and encoding primitives used when building attachment
payloads: reading a path, base64-encoding, and `Path(...).name`. -/
structure FileOps where
  readFile : String → String
  b64encode : String → String
  pathName : String → String

/-- One entry of a SendGrid `attachments` payload array. -/
structure SGAttachment where
  content : String
  filename : String
  ctype : String
  disposition : String
deriving DecidableEq

/-- `SendGridProvider._build_attachments`: path attachments are read and
base64-encoded with octet-stream type; tuple attachments use the given mime
type. -/
def SendGridProvider.build_attachments (fs : FileOps) (attachments : List Attachment) :
    List SGAttachment :=
  attachments.map fun a =>
    match a with
    | .path p =>
        { content := fs.b64encode (fs.readFile p), filename := fs.pathName p,
          ctype := "application/octet-stream", disposition := "attachment" }
    | .tuple filename content mimetype =>
        { content := fs.b64encode content, filename := filename,
          ctype := mimetype, disposition := "attachment" }

/-- One SendGrid personalization block; a recipient object `{"email": e}` is
represented by the address string, a content item by its `(type, value)`
pair. -/
structure SGPersonalization where
  to_addresses : List String
  cc : Option (List String) := none
  bcc : Option (List String) := none
  dynamic_template_data : Option (List (String × String)) := none
deriving DecidableEq

/-- A SendGrid mail-send JSON payload; an absent key is `none`. -/
structure SGPayload where
  personalizations : List SGPersonalization
  from_email : Option String
  subject : Option String := none
  content : Option (List (String × Option String)) := none
  template_id : Option String := none
  reply_to : Option String := none
  headers : Option (List (String × String)) := none
  attachments : Option (List SGAttachment) := none
deriving DecidableEq

/-- `SendGridProvider._build_payload` for a regular (non-template) send: one
personalization with the recipients, optional cc/bcc inside it, top-level
from/subject and a one-item typed content array, plus optional reply_to,
headers and attachments. -/
def SendGridProvider.build_payload (fs : FileOps) (cfg_from : Option String)
    (message : EmailMessageDto) : SGPayload :=
  { personalizations :=
      [{ to_addresses := message.to_addresses,
         cc := if listTruthy message.cc then some (message.cc.getD []) else none,
         bcc := if listTruthy message.bcc then some (message.bcc.getD []) else none }],
    from_email := if strTruthy message.from_email then message.from_email else cfg_from,
    subject := message.subject,
    content := some [((if message.html then "text/html" else "text/plain"), message.body)],
    reply_to := if strTruthy message.reply_to then message.reply_to else none,
    headers := if listTruthy message.headers then message.headers else none,
    attachments :=
      if listTruthy message.attachments then
        some (SendGridProvider.build_attachments fs (message.attachments.getD []))
      else none }

/-- The value of the name returned by `SendGridProvider._send_request`: the
source ends with `return requests`, handing back the imported module object
instead of the local `response`. -/
inductive RequestsReturn
  | module
  | response (r : HttpResponse)
deriving DecidableEq

/-- Attribute access `x.headers.get(key)` on a `_send_request` result: the
module object has no `headers` attribute, so it raises `AttributeError`. -/
def RequestsReturn.headers_get (x : RequestsReturn) (key : String) :
    Except PyError (Option String) :=
  match x with
  | .module => .error (.attributeError "module \x27requests\x27 has no attribute \x27headers\x27")
  | .response r => .ok (headersGet r.headers key)

/-- Attribute access `x.status_code` on a `_send_request` result: the module
object has no `status_code` attribute, so it raises `AttributeError`. -/
def RequestsReturn.status_code (x : RequestsReturn) : Except PyError Nat :=
  match x with
  | .module =>
      .error (.attributeError "module \x27requests\x27 has no attribute \x27status_code\x27")
  | .response r => .ok r.status_code

/-- `SendGridProvider._send_request`: posts the payload, raises
`EmailSendError` for any status outside {200, 202}, and then — the source
slip — `return requests` yields the module object, not the response. -/
def SendGridProvider.send_request (post : SGPayload → HttpResponse)
    (payload : SGPayload) : Except PyError RequestsReturn :=
  let response := post payload
  if response.status_code != 200 && response.status_code != 202 then
    .error (.emailSendError
      ("SendGrid template error: " ++ toString response.status_code ++ " - " ++ response.text)
      (some "sendgrid"))
  else
    .ok .module

/-- `SendGridProvider.send_template`: builds the template payload (one
personalization carrying the recipients and `dynamic_template_data`, the
top-level `template_id` replacing subject/content), calls `_send_request`,
then reads `response.headers` and `response.status_code` from its return
value. -/
def SendGridProvider.send_template (fs : FileOps) (post : SGPayload → HttpResponse)
    (cfg_from : Option String) (template_id : Option String) (to_addresses : List String)
    (template_data : Option (List (String × String))) (from_email : Option String)
    (cc bcc : Option (List String)) (reply_to : Option String)
    (headers : Option (List (String × String))) (attachments : Option (List Attachment)) :
    Except PyError EmailResponseDTO := do
  let payload : SGPayload :=
    { personalizations :=
        [{ to_addresses := to_addresses,
           dynamic_template_data := template_data,
           cc := if listTruthy cc then some (cc.getD []) else none,
           bcc := if listTruthy bcc then some (bcc.getD []) else none }],
      from_email := if strTruthy from_email then from_email else cfg_from,
      template_id := template_id,
      reply_to := if strTruthy reply_to then reply_to else none,
      headers := if listTruthy headers then headers else none,
      attachments :=
        if listTruthy attachments then
          some (SendGridProvider.build_attachments fs (attachments.getD []))
        else none }
  let response ← SendGridProvider.send_request post payload
  let mid ← response.headers_get "X-Message-Id"
  let sc ← response.status_code
  .ok { success := true, message_id := mid, provider := some "sendgrid",
        metadata := [("template_id", .optStr template_id), ("status_code", .num sc)] }

/-- `SendGridProvider.send`: template messages are routed to `send_template`
(with `template_data=message.template_data or {}`); regular messages build
the payload, call `_send_request`, and construct the success DTO from
`response.headers` and `response.status_code`. -/
def SendGridProvider.send (fs : FileOps) (post : SGPayload → HttpResponse)
    (cfg_from : Option String) (message : EmailMessageDto) :
    Except PyError EmailResponseDTO :=
  if message.is_template_email then
    SendGridProvider.send_template fs post cfg_from message.template_id
      message.to_addresses (some (message.template_data.getD [])) message.from_email
      message.cc message.bcc message.reply_to message.headers message.attachments
  else do
    let payload := SendGridProvider.build_payload fs cfg_from message
    let response ← SendGridProvider.send_request post payload
    let mid ← response.headers_get "X-Message-Id"
    let sc ← response.status_code
    .ok { success := true, message_id := mid, provider := some "sendgrid",
          metadata := [("status_code", .num sc)] }

/-- Insertion-ordered grouping used identically by
`SendGridProvider.send_bulk` and `SESProvider.send_bulk`: a Python dict keyed
by `template_id`, each key holding the messages carrying it, keys in
first-appearance order. -/
def insertGrouped (key : Option String) (msg : EmailMessageDto) :
    List (Option String × List EmailMessageDto) →
      List (Option String × List EmailMessageDto)
  | [] => [(key, [msg])]
  | (k, ms) :: rest =>
    if k == key then (k, ms ++ [msg]) :: rest
    else (k, ms) :: insertGrouped key msg rest

/-- The dict build `grouped_by_template[msg.template_id].append(msg)` over a
message list. -/
def groupByTemplateId (msgs : List EmailMessageDto) :
    List (Option String × List EmailMessageDto) :=
  msgs.foldl (fun acc m => insertGrouped m.template_id m acc) []

/-- Sequence a fallible computation over a list, stopping at the first
raised exception (the Python `for` loop inside one `try`). -/
def mapExcept {α β : Type} (f : α → Except PyError β) : List α → Except PyError (List β)
  | [] => .ok []
  | x :: xs => do
    let y ← f x
    let ys ← mapExcept f xs
    .ok (y :: ys)

/-- `SendGridProvider._send_bulk_template`: one personalization per message
of a same-`template_id` group, one API call; after `_send_request` the
source reads `response.status_code` (and on success `response.headers`) from
its return value. -/
def SendGridProvider.send_bulk_template (post : SGPayload → HttpResponse)
    (cfg_from : Option String) (template_id : Option String)
    (messages : List EmailMessageDto) : Except PyError EmailResponseDTO := do
  let personalizations : List SGPersonalization := messages.map fun msg =>
    { to_addresses := msg.to_addresses,
      dynamic_template_data := some (msg.template_data.getD []),
      cc := if listTruthy msg.cc then some (msg.cc.getD []) else none,
      bcc := if listTruthy msg.bcc then some (msg.bcc.getD []) else none }
  let payload : SGPayload :=
    { personalizations := personalizations,
      from_email :=
        match messages.head? with
        | some m => if strTruthy m.from_email then m.from_email else cfg_from
        | none => cfg_from
      , template_id := template_id }
  let response ← SendGridProvider.send_request post payload
  let sc ← response.status_code
  if sc != 200 && sc != 202 then
    .error (.emailSendError ("SendGrid bulk template error: " ++ toString sc)
      (some "sendgrid"))
  else do
    let mid ← response.headers_get "X-Message-Id"
    .ok { success := true, message_id := mid, provider := some "sendgrid",
          metadata := [("bulk_count", .num messages.length),
                       ("template_id", .optStr template_id)] }

/-- `SendGridProvider.send_bulk`: partition the batch into template and
regular messages, group the template messages by `template_id` with one
`_send_bulk_template` call per group, then one `send` per regular message;
any exception inside the loop is re-raised as a batch-level
`EmailSendError`. -/
def SendGridProvider.send_bulk (fs : FileOps) (post : SGPayload → HttpResponse)
    (cfg_from : Option String) (bulk : BulkEmailDTO) :
    Except PyError BulkEmailResponseDTO :=
  let template_messages := bulk.messages.filter (fun m => m.is_template_email)
  let regular_messages := bulk.messages.filter (fun m => !m.is_template_email)
  let run : Except PyError (List EmailResponseDTO) := do
    let groupResponses ← mapExcept
      (fun g => SendGridProvider.send_bulk_template post cfg_from g.1 g.2)
      (groupByTemplateId template_messages)
    let regularResponses ← mapExcept (SendGridProvider.send fs post cfg_from)
      regular_messages
    .ok (groupResponses ++ regularResponses)
  match run with
  | .ok responses => .ok (BulkEmailResponseDTO.from_responses responses)
  | .error e =>
      .error (.emailSendError ("Failed to send bulk emails via SendGrid: " ++ e.str)
        (some "sendgrid"))

/-- C9: evaluation of `SendGridProvider.send` at its failing input.  With the
transport returning status 202 and an `X-Message-Id` header, `send` raises
`AttributeError` instead of returning the successful SendResult its own unit
tests assert, because `_send_request` ends in `return requests` — the module
object — rather than `return response`; the non-2xx half of the claim does
hold: status 400 raises `EmailSendError`. -/
theorem sendgrid_send_module_bug :
    SendGridProvider.send ⟨fun s => s, fun s => s, fun s => s⟩
      (fun _ => { status_code := 202, headers := [("X-Message-Id", "test_message_id_123")] })
      (some "sender@example.com")
      { to_addresses := ["recipient@example.com"], subject := some "Test Email",
        body := some "Hello" }
      = .error (.attributeError "module \x27requests\x27 has no attribute \x27headers\x27")
    ∧ SendGridProvider.send ⟨fun s => s, fun s => s, fun s => s⟩
      (fun _ => { status_code := 400, headers := [], text := "Bad Request" })
      (some "sender@example.com")
      { to_addresses := ["recipient@example.com"], subject := some "Test Email",
        body := some "Hello" }
      = .error (.emailSendError "SendGrid template error: 400 - Bad Request"
          (some "sendgrid")) := by decide

/-- C2: evaluation of `SendGridProvider.send_bulk` at the claimed scenario.
The grouping itself is as described — 2 messages on `welcome` and 1 on
`newsletter` form exactly 2 groups — but the bulk call never completes: the
first `_send_bulk_template` reads `response.status_code` from the module
object `_send_request` returned, and the resulting `AttributeError` is
wrapped into a batch-level `EmailSendError`, so no BulkResult with
`total == 2` (or `total == 3` with a mixed-in regular message) is ever
produced, contrary to the adapter's own unit tests. -/
theorem sendgrid_send_bulk_module_bug :
    (groupByTemplateId
        [{ to_addresses := ["user1@example.com"], template_id := some "welcome",
           template_data := some [("name", "Alice")] },
         { to_addresses := ["user2@example.com"], template_id := some "welcome",
           template_data := some [("name", "Bob")] },
         { to_addresses := ["user3@example.com"], template_id := some "newsletter",
           template_data := some [("month", "Nov")] }]).map (fun g => (g.1, g.2.length))
      = [(some "welcome", 2), (some "newsletter", 1)]
    ∧ SendGridProvider.send_bulk ⟨fun s => s, fun s => s, fun s => s⟩
      (fun _ => { status_code := 202, headers := [("X-Message-Id", "bulk_id_123")] })
      (some "sender@example.com")
      { messages :=
          [{ to_addresses := ["user1@example.com"], template_id := some "welcome",
             template_data := some [("name", "Alice")] },
           { to_addresses := ["user2@example.com"], template_id := some "welcome",
             template_data := some [("name", "Bob")] },
           { to_addresses := ["user3@example.com"], template_id := some "newsletter",
             template_data := some [("month", "Nov")] }] }
      = .error (.emailSendError
          "Failed to send bulk emails via SendGrid: module \x27requests\x27 has no attribute \x27status_code\x27"
          (some "sendgrid"))
    ∧ SendGridProvider.send_bulk ⟨fun s => s, fun s => s, fun s => s⟩
      (fun _ => { status_code := 202, headers := [("X-Message-Id", "bulk_id_123")] })
      (some "sender@example.com")
      { messages :=
          [{ to_addresses := ["user1@example.com"], template_id := some "welcome",
             template_data := some [("name", "Alice")] },
           { to_addresses := ["user2@example.com"], template_id := some "welcome",
             template_data := some [("name", "Bob")] },
           { to_addresses := ["user3@example.com"], template_id := some "newsletter",
             template_data := some [("month", "Nov")] },
           { to_addresses := ["admin@example.com"], subject := some "Admin Report",
             body := some "Report content" }] }
      = .error (.emailSendError
          "Failed to send bulk emails via SendGrid: module \x27requests\x27 has no attribute \x27status_code\x27"
          (some "sendgrid")) := by decide

/-- The destination block of an SES single-send call. -/
structure SESSingleDestination where
  toAddresses : List String
  ccAddresses : Option (List String) := none
  bccAddresses : Option (List String) := none
deriving DecidableEq

/-- Parameters of `send_templated_email`. -/
structure SESTemplatedParams where
  source : Option String
  destination : SESSingleDestination
  template : Option String
  templateData : String
  replyToAddresses : Option (List String) := none
deriving DecidableEq

/-- Parameters of `send_email` (the simple structured send): the `Message`
dict carries the subject and one Html-or-Text body entry selected by the
`html` flag. -/
structure SESSimpleParams where
  source : Option String
  destination : SESSingleDestination
  subject : Option String
  bodyIsHtml : Bool
  bodyData : Option String
  replyToAddresses : Option (List String) := none
deriving DecidableEq

/-- Parameters of `send_raw_email`: the client-side MIME message is
represented structurally (MIME encoding is an external primitive); the
envelope `Destinations` is `to + cc + bcc`. -/
structure SESRawParams where
  source : Option String
  destinations : List String
  subject : Option String
  from_email : Option String
  to_line : String
  cc_line : Option String
  reply_to : Option String
  headers : Option (List (String × String))
  bodyIsHtml : Bool
  bodyData : Option String
  attachments : List Attachment
deriving DecidableEq

/-- One destination entry of a `send_bulk_templated_email` call. -/
structure SESDestination where
  toAddresses : List String
  ccAddresses : Option (List String) := none
  bccAddresses : Option (List String) := none
  replacementTemplateData : Option String := none
deriving DecidableEq

/-- Parameters of one native `send_bulk_templated_email` call. -/
structure SESBulkParams where
  source : Option String
  template : Option String
  defaultTemplateData : String
  destinations : List SESDestination
deriving DecidableEq

/-- An SES single-send response: `MessageId` plus
`ResponseMetadata.RequestId`. -/
structure SESSendResponse where
  messageId : String
  requestId : String
deriving DecidableEq

/-- An SES bulk-send response: the per-destination `Status` list plus
`ResponseMetadata.RequestId`. -/
structure SESBulkResponse where
  statuses : List String
  requestId : String
deriving DecidableEq

/-- The boto3 SES client as a black-box transport: each operation maps the
built parameters to a provider response. -/
structure SESClient where
  send_templated_email : SESTemplatedParams → SESSendResponse
  send_email : SESSimpleParams → SESSendResponse
  send_raw_email : SESRawParams → SESSendResponse
  send_bulk_templated_email : SESBulkParams → SESBulkResponse

/-- The destination block built by the single-send paths: cc/bcc added only
when truthy. -/
def SESProvider.build_single_destination (message : EmailMessageDto) :
    SESSingleDestination :=
  { toAddresses := message.to_addresses,
    ccAddresses := if listTruthy message.cc then some (message.cc.getD []) else none,
    bccAddresses := if listTruthy message.bcc then some (message.bcc.getD []) else none }

/-- `SESProvider._send_templated_email`: the templated-send path. -/
def SESProvider.send_templated_email (client : SESClient)
    (serialize : List (String × String) → String) (cfg_from : Option String)
    (message : EmailMessageDto) : EmailResponseDTO :=
  let params : SESTemplatedParams :=
    { source := if strTruthy message.from_email then message.from_email else cfg_from,
      destination := SESProvider.build_single_destination message,
      template := message.template_id,
      templateData := serialize (message.template_data.getD []),
      replyToAddresses :=
        if strTruthy message.reply_to then some [message.reply_to.getD ""] else none }
  let response := client.send_templated_email params
  { success := true, message_id := some response.messageId, provider := some "ses",
    metadata := [("template_id", .optStr message.template_id),
                 ("request_id", .str response.requestId)] }

/-- `SESProvider._send_simple_email`: the structured send without
attachments. -/
def SESProvider.send_simple_email (client : SESClient) (cfg_from : Option String)
    (message : EmailMessageDto) : EmailResponseDTO :=
  let params : SESSimpleParams :=
    { source := if strTruthy message.from_email then message.from_email else cfg_from,
      destination := SESProvider.build_single_destination message,
      subject := message.subject,
      bodyIsHtml := message.html,
      bodyData := message.body,
      replyToAddresses :=
        if strTruthy message.reply_to then some [message.reply_to.getD ""] else none }
  let response := client.send_email params
  { success := true, message_id := some response.messageId, provider := some "ses",
    metadata := [("request_id", .str response.requestId)] }

/-- `SESProvider._send_raw_email`: the client-side MIME path used when a
regular message has attachments. -/
def SESProvider.send_raw_email (client : SESClient) (cfg_from : Option String)
    (message : EmailMessageDto) : EmailResponseDTO :=
  let source := if strTruthy message.from_email then message.from_email else cfg_from
  let params : SESRawParams :=
    { source := source,
      destinations :=
        message.to_addresses ++ (message.cc.getD []) ++ (message.bcc.getD []),
      subject := message.subject,
      from_email := source,
      to_line := String.intercalate ", " message.to_addresses,
      cc_line :=
        if listTruthy message.cc then some (String.intercalate ", " (message.cc.getD []))
        else none,
      reply_to := if strTruthy message.reply_to then message.reply_to else none,
      headers := message.headers,
      bodyIsHtml := message.html,
      bodyData := message.body,
      attachments := message.attachments.getD [] }
  let response := client.send_raw_email params
  { success := true, message_id := some response.messageId, provider := some "ses",
    metadata := [("request_id", .str response.requestId)] }

/-- `SESProvider.send`: the three-way dispatch — template message, regular
message with attachments, simple regular message.  Transport-level boto
exceptions are outside the modelled fragment, so the `except` re-raise
branches are unreachable here. -/
def SESProvider.send (client : SESClient)
    (serialize : List (String × String) → String) (cfg_from : Option String)
    (message : EmailMessageDto) : EmailResponseDTO :=
  if message.is_template_email then
    SESProvider.send_templated_email client serialize cfg_from message
  else if listTruthy message.attachments then
    SESProvider.send_raw_email client cfg_from message
  else
    SESProvider.send_simple_email client cfg_from message

/-- One destination entry of `_send_bulk_templated`, one per message of the
chunk: `ReplacementTemplateData` only when the message's data is truthy,
cc/bcc only when truthy. -/
def SESProvider.build_destination (serialize : List (String × String) → String)
    (msg : EmailMessageDto) : SESDestination :=
  { toAddresses := msg.to_addresses,
    replacementTemplateData :=
      if listTruthy msg.template_data then some (serialize (msg.template_data.getD []))
      else none,
    ccAddresses := if listTruthy msg.cc then some (msg.cc.getD []) else none,
    bccAddresses := if listTruthy msg.bcc then some (msg.bcc.getD []) else none }

/-- The parameter build of `SESProvider._send_bulk_templated`: `Source` from
the first message's `from_email` falling back to the configured one,
`DefaultTemplateData` from the first message's data, one destination per
message.  Callers only pass non-empty chunks, so the `none` head fallbacks
are unreachable. -/
def SESProvider.build_bulk_params (serialize : List (String × String) → String)
    (cfg_from : Option String) (template_id : Option String)
    (messages : List EmailMessageDto) : SESBulkParams :=
  { source :=
      match messages.head? with
      | some m => if strTruthy m.from_email then m.from_email else cfg_from
      | none => cfg_from
    , template := template_id,
    defaultTemplateData :=
      serialize ((messages.head?.bind (fun m => m.template_data)).getD []),
    destinations := messages.map (SESProvider.build_destination serialize) }

/-- `SESProvider._send_bulk_templated`: build the parameters, issue the
native call, count the `Success` statuses, and report one SendResult for the
whole chunk with `bulk_count` metadata. -/
def SESProvider.send_bulk_templated (client : SESClient)
    (serialize : List (String × String) → String) (cfg_from : Option String)
    (template_id : Option String) (messages : List EmailMessageDto) :
    EmailResponseDTO :=
  let params := SESProvider.build_bulk_params serialize cfg_from template_id messages
  let response := client.send_bulk_templated_email params
  let success_count := (response.statuses.filter (fun st => st == "Success")).length
  { success := true, message_id := some response.requestId, provider := some "ses",
    metadata := [("template_id", .optStr template_id),
                 ("bulk_count", .num messages.length),
                 ("success_count", .num success_count),
                 ("request_id", .str response.requestId)] }

/-- The chunking loop `for i in range(0, len(messages), 50)` of
`SESProvider.send_bulk`: successive slices `messages[i:i+50]`. -/
def chunksOf50 {α : Type} : List α → List (List α)
  | [] => []
  | x :: xs => ((x :: xs).take 50) :: chunksOf50 ((x :: xs).drop 50)
termination_by l => l.length
decreasing_by simp [List.length_drop]; omega

/-- The native bulk calls issued by `SESProvider.send_bulk`, in order: one
`send_bulk_templated_email` per ≤50-message chunk of each template group. -/
def SESProvider.native_bulk_calls (serialize : List (String × String) → String)
    (cfg_from : Option String) (bulk : BulkEmailDTO) : List SESBulkParams :=
  (groupByTemplateId (bulk.messages.filter (fun m => m.is_template_email))).flatMap
    (fun g => (chunksOf50 g.2).map (SESProvider.build_bulk_params serialize cfg_from g.1))

/-- `SESProvider.send_bulk`: template messages are grouped by `template_id`,
each group chunked into sub-batches of at most 50, one `_send_bulk_templated`
call and one SendResult per chunk; regular messages go through the ordinary
`send`; the SendResults are aggregated with `from_responses`. -/
def SESProvider.send_bulk (client : SESClient)
    (serialize : List (String × String) → String) (cfg_from : Option String)
    (bulk : BulkEmailDTO) : BulkEmailResponseDTO :=
  let template_messages := bulk.messages.filter (fun m => m.is_template_email)
  let regular_messages := bulk.messages.filter (fun m => !m.is_template_email)
  let templated_responses :=
    (groupByTemplateId template_messages).flatMap
      (fun g => (chunksOf50 g.2).map
        (fun batch => SESProvider.send_bulk_templated client serialize cfg_from g.1 batch))
  let regular_responses := regular_messages.map (SESProvider.send client serialize cfg_from)
  BulkEmailResponseDTO.from_responses (templated_responses ++ regular_responses)

lemma chunksOf50_nil {α : Type} : chunksOf50 ([] : List α) = [] := by
  rw [chunksOf50]

lemma chunksOf50_cons {α : Type} (x : α) (xs : List α) :
    chunksOf50 (x :: xs) = ((x :: xs).take 50) :: chunksOf50 ((x :: xs).drop 50) := by
  rw [chunksOf50]

lemma chunksOf50_map_length_75 {α : Type} (l : List α) (h : l.length = 75) :
    (chunksOf50 l).map List.length = [50, 25] := by
  cases l with
  | nil => simp at h
  | cons x xs =>
    rw [chunksOf50_cons]
    have hd : (List.drop 50 (x :: xs)).length = 25 := by
      simp only [List.length_drop]
      simp only [List.length_cons] at h ⊢
      omega
    cases hdrop : List.drop 50 (x :: xs) with
    | nil => rw [hdrop] at hd; simp at hd
    | cons y ys =>
      rw [chunksOf50_cons]
      have h25 : (y :: ys).length = 25 := by rw [← hdrop]; exact hd
      have h0 : List.drop 50 (y :: ys) = [] := by
        apply List.eq_nil_of_length_eq_zero
        simp only [List.length_drop, h25]
      rw [h0, chunksOf50_nil]
      simp only [List.map_cons, List.map_nil, List.length_take, h, h25]
      decide

lemma chunksOf50_length_le_aux {α : Type} :
    ∀ (n : Nat) (l : List α), l.length ≤ n → ∀ c ∈ chunksOf50 l, c.length ≤ 50 := by
  intro n
  induction n with
  | zero =>
    intro l hl c hc
    have hnil : l = [] := List.eq_nil_of_length_eq_zero (Nat.le_zero.mp hl)
    rw [hnil, chunksOf50_nil] at hc
    simp at hc
  | succ n ih =>
    intro l hl c hc
    cases l with
    | nil => rw [chunksOf50_nil] at hc; simp at hc
    | cons x xs =>
      rw [chunksOf50_cons] at hc
      rcases List.mem_cons.mp hc with rfl | h
      · simp only [List.length_take]
        omega
      · refine ih (List.drop 50 (x :: xs)) ?_ c h
        simp only [List.length_drop, List.length_cons]
        simp only [List.length_cons] at hl
        omega

lemma chunksOf50_length_le {α : Type} (l : List α) :
    ∀ c ∈ chunksOf50 l, c.length ≤ 50 :=
  chunksOf50_length_le_aux l.length l (Nat.le_refl _)

lemma foldl_insertGrouped_const (k : Option String) (msgs : List EmailMessageDto)
    (h : ∀ m ∈ msgs, m.template_id = k) :
    ∀ acc : List EmailMessageDto,
      msgs.foldl (fun a m => insertGrouped m.template_id m a) [(k, acc)]
        = [(k, acc ++ msgs)] := by
  induction msgs with
  | nil => intro acc; simp
  | cons m ms ih =>
    intro acc
    have hm : m.template_id = k := h m (List.mem_cons_self m ms)
    have hms : ∀ x ∈ ms, x.template_id = k := fun x hx => h x (List.mem_cons_of_mem m hx)
    simp only [List.foldl_cons, hm, insertGrouped, beq_self_eq_true, if_true]
    rw [ih hms (acc ++ [m])]
    simp

lemma groupByTemplateId_const (k : Option String) (msgs : List EmailMessageDto)
    (hne : msgs ≠ []) (h : ∀ m ∈ msgs, m.template_id = k) :
    groupByTemplateId msgs = [(k, msgs)] := by
  cases msgs with
  | nil => exact absurd rfl hne
  | cons m ms =>
    have hm : m.template_id = k := h m (List.mem_cons_self m ms)
    have hms : ∀ x ∈ ms, x.template_id = k := fun x hx => h x (List.mem_cons_of_mem m hx)
    simp only [groupByTemplateId, List.foldl_cons, insertGrouped, hm]
    rw [foldl_insertGrouped_const k ms hms [m]]
    simp

/-- C1: for a BulkRequest whose 75 messages are all template messages
sharing one `template_id`, `SESProvider.send_bulk` chunks them into
sub-batches of at most 50 destinations: exactly 2 native bulk calls are
issued, with destination counts 50 and 25, each producing its own
SendResult, and the resulting BulkResult has `total = 2`; in general every
issued chunk carries at most 50 destinations. -/
theorem ses_bulk_chunking (client : SESClient)
    (serialize : List (String × String) → String) (cfg_from : Option String)
    (bulk : BulkEmailDTO) (tid : String)
    (hlen : bulk.messages.length = 75)
    (htid : ∀ m ∈ bulk.messages, m.template_id = some tid) :
    (SESProvider.native_bulk_calls serialize cfg_from bulk).map
        (fun p => p.destinations.length) = [50, 25]
    ∧ (SESProvider.send_bulk client serialize cfg_from bulk).total = 2
    ∧ (SESProvider.send_bulk client serialize cfg_from bulk).responses.length = 2
    ∧ ∀ (bulk2 : BulkEmailDTO) (p : SESBulkParams),
        p ∈ SESProvider.native_bulk_calls serialize cfg_from bulk2 →
        p.destinations.length ≤ 50 := by
  have hall : ∀ m ∈ bulk.messages, m.is_template_email = true := fun m hm => by
    simp [EmailMessageDto.is_template_email, htid m hm]
  have hfilt : bulk.messages.filter (fun m => m.is_template_email) = bulk.messages :=
    List.filter_eq_self.mpr hall
  have hfilt2 : bulk.messages.filter (fun m => !m.is_template_email) = [] := by
    rw [List.filter_eq_nil_iff]
    intro a ha
    simp [hall a ha]
  have hne : bulk.messages ≠ [] := by
    intro e
    rw [e] at hlen
    simp at hlen
  have hgrp := groupByTemplateId_const (some tid) bulk.messages hne htid
  have hchunklen : (chunksOf50 bulk.messages).length = 2 := by
    have hc := congrArg List.length (chunksOf50_map_length_75 bulk.messages hlen)
    simpa using hc
  refine ⟨?_, ?_, ?_, ?_⟩
  · rw [SESProvider.native_bulk_calls, hfilt, hgrp]
    simp only [List.flatMap_cons, List.flatMap_nil, List.append_nil, List.map_map]
    have hcong :
        (fun p : SESBulkParams => p.destinations.length) ∘
            SESProvider.build_bulk_params serialize cfg_from (some tid)
          = fun batch : List EmailMessageDto => batch.length := by
      funext batch
      simp [SESProvider.build_bulk_params]
    rw [hcong]
    exact chunksOf50_map_length_75 bulk.messages hlen
  · rw [SESProvider.send_bulk, hfilt, hfilt2, hgrp]
    simp [BulkEmailResponseDTO.from_responses, hchunklen]
  · rw [SESProvider.send_bulk, hfilt, hfilt2, hgrp]
    simp [BulkEmailResponseDTO.from_responses, hchunklen]
  · intro bulk2 p hp
    rw [SESProvider.native_bulk_calls] at hp
    obtain ⟨g, _, hp2⟩ := List.mem_flatMap.mp hp
    obtain ⟨batch, hb, rfl⟩ := List.mem_map.mp hp2
    simpa [SESProvider.build_bulk_params] using chunksOf50_length_le g.2 batch hb

/-- Witness for C1: 75 concrete template messages on one template. -/
theorem ses_bulk_chunking_witness :
    (SESProvider.native_bulk_calls (fun _ => "") (some "noreply@example.com")
        { messages := List.replicate 75
            { to_addresses := ["u@example.com"], template_id := some "welcome",
              template_data := some [("name", "A")] } }).map
        (fun p => p.destinations.length) = [50, 25]
    ∧ (SESProvider.send_bulk
        { send_templated_email := fun _ => { messageId := "m", requestId := "r" },
          send_email := fun _ => { messageId := "m", requestId := "r" },
          send_raw_email := fun _ => { messageId := "m", requestId := "r" },
          send_bulk_templated_email := fun _ => { statuses := [], requestId := "r" } }
        (fun _ => "") (some "noreply@example.com")
        { messages := List.replicate 75
            { to_addresses := ["u@example.com"], template_id := some "welcome",
              template_data := some [("name", "A")] } }).total = 2 := by
  have h := ses_bulk_chunking
      { send_templated_email := fun _ => { messageId := "m", requestId := "r" },
        send_email := fun _ => { messageId := "m", requestId := "r" },
        send_raw_email := fun _ => { messageId := "m", requestId := "r" },
        send_bulk_templated_email := fun _ => { statuses := [], requestId := "r" } }
      (fun _ => "") (some "noreply@example.com")
      { messages := List.replicate 75
          { to_addresses := ["u@example.com"], template_id := some "welcome",
            template_data := some [("name", "A")] } }
      "welcome" (by simp)
      (by
        intro m hm
        rw [List.eq_of_mem_replicate hm])
  exact ⟨h.1, h.2.1⟩

end Mailbridge
